import Mathlib

/-!
Verification of the GCM message builder and its JSON serialization contract
(`src/message/mod.rs`).

The embedding models `serde_json::Value` as an inductive `JsonValue`, a
`serde_json::Map` (a `BTreeMap` iterated in strictly increasing key order) as an
association list, and the derived `Serialize` instance for `Message` as a
field-by-field serializer: each field annotated `skip_serializing_if =
"Option::is_none"` contributes its key/value pair exactly when the option is
`some`, in struct declaration order.  The `priority` field is additionally
annotated `serialize_with = "priority_lowercase"`, so when it is present the
whole `Option` is handed to `priority_lowercase`.
-/

/-- Model of `serde_json::value::Value`: null, booleans, numbers, strings, arrays and
objects.  Numbers are modelled as integers; no claim depends on float values. -/
inductive JsonValue where
  | null : JsonValue
  | bool : Bool → JsonValue
  | num : Int → JsonValue
  | str : String → JsonValue
  | arr : List JsonValue → JsonValue
  | obj : List (String × JsonValue) → JsonValue

/-- Model of `serde_json::map::Map<String, Value>`: a `BTreeMap`, modelled as an
association list whose well-formedness (strictly sorted keys) is stated as a
hypothesis where a proof needs it. -/
abbrev JsonMap := List (String × JsonValue)

/-- The source enum `Priority`, variants `Normal` and `High`. -/
inductive Priority where
  | Normal : Priority
  | High : Priority
deriving DecidableEq

/-- The source struct `Message`: nine optional fields, in struct declaration order. -/
structure Message where
  registration_ids : Option (List String)
  collapse_key : Option String
  priority : Option Priority
  content_available : Option Bool
  delay_while_idle : Option Bool
  time_to_live : Option Int
  restricted_package_name : Option String
  dry_run : Option Bool
  data : Option JsonMap

/-- Encoder `priority_lowercase`: receives the whole `Option<Priority>` field,
defaults an absent value to `Normal` (`unwrap_or(&normal_priority)`), then
renders `Normal → "normal"`, `High → "high"`. -/
def priority_lowercase (priority_field : Option Priority) : JsonValue :=
  let normal_priority := Priority.Normal
  let priority := priority_field.getD normal_priority
  match priority with
  | Priority.Normal => JsonValue.str "normal"
  | Priority.High => JsonValue.str "high"

/-- One field of the derived serializer: under the
`skip_serializing_if = "Option::is_none"` gate, a `none` field contributes
nothing, a `some` field contributes its key and encoded value. -/
def serializeOptField {α : Type} (key : String) (o : Option α)
    (enc : α → JsonValue) : List (String × JsonValue) :=
  match o with
  | none => []
  | some v => [(key, enc v)]

/-- The derived `Serialize` impl for `Message`: the fields in declaration
order, each under its skip-if-none gate.  For `priority` the gate checks the
option and then hands the whole option to `priority_lowercase`, exactly as
`serialize_with` does. -/
def serializeMessage (m : Message) : List (String × JsonValue) :=
  serializeOptField "registration_ids" m.registration_ids
    (fun ids => JsonValue.arr (ids.map JsonValue.str)) ++
  serializeOptField "collapse_key" m.collapse_key JsonValue.str ++
  serializeOptField "priority" m.priority
    (fun _ => priority_lowercase m.priority) ++
  serializeOptField "content_available" m.content_available JsonValue.bool ++
  serializeOptField "delay_while_idle" m.delay_while_idle JsonValue.bool ++
  serializeOptField "time_to_live" m.time_to_live JsonValue.num ++
  serializeOptField "restricted_package_name" m.restricted_package_name
    JsonValue.str ++
  serializeOptField "dry_run" m.dry_run JsonValue.bool ++
  serializeOptField "data" m.data JsonValue.obj

/-- The serialized JSON document of a `Message`. -/
def toJson (m : Message) : JsonValue :=
  JsonValue.obj (serializeMessage m)

/-- The keys present in a serialized object body. -/
def jsonKeys (l : List (String × JsonValue)) : List String :=
  l.map Prod.fst

/-- Constructor `Message::new`: registration ids set, every other field `None`. -/
def Message.new (registration_ids : List String) : Message :=
  { registration_ids := some registration_ids
    collapse_key := none
    priority := none
    content_available := none
    delay_while_idle := none
    time_to_live := none
    restricted_package_name := none
    dry_run := none
    data := none }

/-- Setter `Message::collapse_key`. -/
def Message.collapse_key' (m : Message) (collapse_key : String) : Message :=
  { m with collapse_key := some collapse_key }

/-- Setter `Message::priority`. -/
def Message.priority' (m : Message) (priority : Priority) : Message :=
  { m with priority := some priority }

/-- Setter `Message::content_available`. -/
def Message.content_available' (m : Message) (content_available : Bool) :
    Message :=
  { m with content_available := some content_available }

/-- Setter `Message::delay_while_idle`. -/
def Message.delay_while_idle' (m : Message) (delay_while_idle : Bool) :
    Message :=
  { m with delay_while_idle := some delay_while_idle }

/-- Setter `Message::time_to_live`; the `i32` argument is modelled as
`Int`, no arithmetic is performed on it. -/
def Message.time_to_live' (m : Message) (time_to_live : Int) : Message :=
  { m with time_to_live := some time_to_live }

/-- Setter `Message::restricted_package_name`. -/
def Message.restricted_package_name' (m : Message)
    (restricted_package_name : String) : Message :=
  { m with restricted_package_name := some restricted_package_name }

/-- Setter `Message::dry_run`. -/
def Message.dry_run' (m : Message) (dry_run : Bool) : Message :=
  { m with dry_run := some dry_run }

mutual
/-- Deep copy `Value::clone()`: the derived deep copy of a `serde_json` value. -/
def cloneValue : JsonValue → JsonValue
  | JsonValue.null => JsonValue.null
  | JsonValue.bool b => JsonValue.bool b
  | JsonValue.num n => JsonValue.num n
  | JsonValue.str s => JsonValue.str s
  | JsonValue.arr xs => JsonValue.arr (cloneList xs)
  | JsonValue.obj fs => JsonValue.obj (cloneFields fs)

/-- Deep copy of the elements of a JSON array. -/
def cloneList : List JsonValue → List JsonValue
  | [] => []
  | x :: xs => cloneValue x :: cloneList xs

/-- Deep copy of the fields of a JSON object. -/
def cloneFields : List (String × JsonValue) → List (String × JsonValue)
  | [] => []
  | (k, v) :: fs => (k, cloneValue v) :: cloneFields fs
end

/-- Model of `BTreeMap::insert` on the association-list model: place the key in sorted
position, replacing an existing binding of the same key. -/
def mapInsert : JsonMap → String → JsonValue → JsonMap
  | [], k, v => [(k, v)]
  | (k', v') :: rest, k, v =>
    if k < k' then (k, v) :: (k', v') :: rest
    else if k = k' then (k, v) :: rest
    else (k', v') :: mapInsert rest k v

/-- Setter `Message::data`: builds a fresh map, inserting a clone of
every key/value pair of the caller's map in iteration order, and stores it. -/
def Message.data' (m : Message) (data : JsonMap) : Message :=
  let datamap : JsonMap :=
    data.foldl (fun acc kv => mapInsert acc kv.1 (cloneValue kv.2)) []
  { m with data := some datamap }

/-- Finalizer `Message::build`: returns `self` unchanged. -/
def Message.build (m : Message) : Message :=
  m

/-- The messages reachable through the public interface: the primary
constructor followed by any sequence of fluent setters and `build`. -/
inductive ReachableMessage : Message → Prop where
  | new : ∀ ids, ReachableMessage (Message.new ids)
  | collapse_key : ∀ m k, ReachableMessage m →
      ReachableMessage (m.collapse_key' k)
  | priority : ∀ m p, ReachableMessage m → ReachableMessage (m.priority' p)
  | content_available : ∀ m b, ReachableMessage m →
      ReachableMessage (m.content_available' b)
  | delay_while_idle : ∀ m b, ReachableMessage m →
      ReachableMessage (m.delay_while_idle' b)
  | time_to_live : ∀ m t, ReachableMessage m →
      ReachableMessage (m.time_to_live' t)
  | restricted_package_name : ∀ m s, ReachableMessage m →
      ReachableMessage (m.restricted_package_name' s)
  | dry_run : ∀ m b, ReachableMessage m → ReachableMessage (m.dry_run' b)
  | data : ∀ m d, ReachableMessage m → ReachableMessage (m.data' d)
  | build : ∀ m, ReachableMessage m → ReachableMessage m.build

/-- One hexadecimal digit, lowercase, as `serde_json` writes them. -/
def hexDigit (n : Nat) : Char :=
  if n < 10 then Char.ofNat (48 + n) else Char.ofNat (87 + n)

/-- Four-digit hexadecimal rendering used in `\u00XX` escapes. -/
def hex4 (n : Nat) : String :=
  String.mk [hexDigit (n / 4096 % 16), hexDigit (n / 256 % 16),
             hexDigit (n / 16 % 16), hexDigit (n % 16)]

/-- The escape `serde_json` applies to one character inside a JSON string:
quote and backslash are backslash-escaped, the named control characters use
their two-character forms, other control characters use `\u00XX`, and every
other character is written as itself. -/
def escapeChar (c : Char) : String :=
  if c = Char.ofNat 34 then "\\\""
  else if c = Char.ofNat 92 then "\\\\"
  else if c = Char.ofNat 8 then "\\b"
  else if c = Char.ofNat 9 then "\\t"
  else if c = Char.ofNat 10 then "\\n"
  else if c = Char.ofNat 12 then "\\f"
  else if c = Char.ofNat 13 then "\\r"
  else if c.toNat < 32 then "\\u" ++ hex4 c.toNat
  else String.singleton c

/-- A JSON string literal: quotes around the escaped characters. -/
def renderString (s : String) : String :=
  "\"" ++ String.join (s.toList.map escapeChar) ++ "\""

mutual
/-- The compact rendering `serde_json::to_string` produces for a value:
no whitespace, object fields in stored order. -/
def renderJson : JsonValue → String
  | JsonValue.null => "null"
  | JsonValue.bool true => "true"
  | JsonValue.bool false => "false"
  | JsonValue.num n => toString n
  | JsonValue.str s => renderString s
  | JsonValue.arr xs => "[" ++ renderList xs ++ "]"
  | JsonValue.obj fs => "\x7b" ++ renderFields fs ++ "\x7d"

/-- Comma-separated rendering of array elements. -/
def renderList : List JsonValue → String
  | [] => ""
  | [x] => renderJson x
  | x :: y :: xs => renderJson x ++ "," ++ renderList (y :: xs)

/-- Comma-separated rendering of object fields. -/
def renderFields : List (String × JsonValue) → String
  | [] => ""
  | [(k, v)] => renderString k ++ ":" ++ renderJson v
  | (k, v) :: f :: fs =>
    renderString k ++ ":" ++ renderJson v ++ "," ++ renderFields (f :: fs)
end

/-- A key appears among a gated field's serialized keys exactly when it is
the field's key and the field is set. -/
theorem mem_map_fst_serializeOptField {α : Type} (key : String) (o : Option α)
    (enc : α → JsonValue) (k : String) :
    k ∈ (serializeOptField key o enc).map Prod.fst ↔ k = key ∧ o.isSome := by
  cases o <;> simp [serializeOptField]

/-- A pair appears in a gated field's serialization exactly when the field is
set and the pair is its key with the encoded value. -/
theorem mem_serializeOptField {α : Type} (key : String) (o : Option α)
    (enc : α → JsonValue) (p : String × JsonValue) :
    p ∈ serializeOptField key o enc ↔ ∃ a, o = some a ∧ p = (key, enc a) := by
  cases o <;> simp [serializeOptField]

/-- Characterization of the serialized keys: a key is present exactly when it
names a field that is set. -/
theorem mem_jsonKeys_serializeMessage (m : Message) (k : String) :
    k ∈ jsonKeys (serializeMessage m) ↔
      (k = "registration_ids" ∧ m.registration_ids.isSome) ∨
      (k = "collapse_key" ∧ m.collapse_key.isSome) ∨
      (k = "priority" ∧ m.priority.isSome) ∨
      (k = "content_available" ∧ m.content_available.isSome) ∨
      (k = "delay_while_idle" ∧ m.delay_while_idle.isSome) ∨
      (k = "time_to_live" ∧ m.time_to_live.isSome) ∨
      (k = "restricted_package_name" ∧ m.restricted_package_name.isSome) ∨
      (k = "dry_run" ∧ m.dry_run.isSome) ∨
      (k = "data" ∧ m.data.isSome) := by
  simp only [jsonKeys, serializeMessage, List.map_append, List.mem_append,
    mem_map_fst_serializeOptField, or_assoc]

/-- No field encoder ever emits `null`: every value paired with a key in the
serialized document is a non-null JSON value. -/
theorem serializeMessage_no_null (m : Message) (k : String) (v : JsonValue)
    (h : (k, v) ∈ serializeMessage m) : v ≠ JsonValue.null := by
  simp only [serializeMessage, List.mem_append, mem_serializeOptField,
    Prod.mk.injEq, or_assoc] at h
  rcases h with ⟨a, ha, hk, rfl⟩ | ⟨a, ha, hk, rfl⟩ | ⟨a, ha, hk, rfl⟩ |
    ⟨a, ha, hk, rfl⟩ | ⟨a, ha, hk, rfl⟩ | ⟨a, ha, hk, rfl⟩ |
    ⟨a, ha, hk, rfl⟩ | ⟨a, ha, hk, rfl⟩ | ⟨a, ha, hk, rfl⟩
  all_goals try simp
  rw [ha]
  cases a <;> simp [priority_lowercase]

/-- C1: for every `Message`, every optional field that was never set is
entirely absent from the serialized JSON document — the document contains no
key for that field, and no entry of the document is `null`. -/
theorem c1_unset_optional_fields_absent (m : Message) :
    (m.registration_ids = none →
      "registration_ids" ∉ jsonKeys (serializeMessage m)) ∧
    (m.collapse_key = none → "collapse_key" ∉ jsonKeys (serializeMessage m)) ∧
    (m.priority = none → "priority" ∉ jsonKeys (serializeMessage m)) ∧
    (m.content_available = none →
      "content_available" ∉ jsonKeys (serializeMessage m)) ∧
    (m.delay_while_idle = none →
      "delay_while_idle" ∉ jsonKeys (serializeMessage m)) ∧
    (m.time_to_live = none → "time_to_live" ∉ jsonKeys (serializeMessage m)) ∧
    (m.restricted_package_name = none →
      "restricted_package_name" ∉ jsonKeys (serializeMessage m)) ∧
    (m.dry_run = none → "dry_run" ∉ jsonKeys (serializeMessage m)) ∧
    (m.data = none → "data" ∉ jsonKeys (serializeMessage m)) ∧
    (∀ k v, (k, v) ∈ serializeMessage m → v ≠ JsonValue.null) := by
  refine ⟨?_, ?_, ?_, ?_, ?_, ?_, ?_, ?_, ?_, serializeMessage_no_null m⟩ <;>
    · intro h hmem
      rw [mem_jsonKeys_serializeMessage] at hmem
      simp [h] at hmem

/-- Witness for C1 at a concrete message with all nine fields unset (and, for
the no-null conjunct, a concrete message carrying one serialized entry). -/
theorem c1_witness :
    ("registration_ids" ∉ jsonKeys (serializeMessage
      (Message.mk none none none none none none none none none))) ∧
    ("collapse_key" ∉ jsonKeys (serializeMessage
      (Message.mk none none none none none none none none none))) ∧
    ("priority" ∉ jsonKeys (serializeMessage
      (Message.mk none none none none none none none none none))) ∧
    ("content_available" ∉ jsonKeys (serializeMessage
      (Message.mk none none none none none none none none none))) ∧
    ("delay_while_idle" ∉ jsonKeys (serializeMessage
      (Message.mk none none none none none none none none none))) ∧
    ("time_to_live" ∉ jsonKeys (serializeMessage
      (Message.mk none none none none none none none none none))) ∧
    ("restricted_package_name" ∉ jsonKeys (serializeMessage
      (Message.mk none none none none none none none none none))) ∧
    ("dry_run" ∉ jsonKeys (serializeMessage
      (Message.mk none none none none none none none none none))) ∧
    ("data" ∉ jsonKeys (serializeMessage
      (Message.mk none none none none none none none none none))) ∧
    JsonValue.arr [JsonValue.str "abc"] ≠ JsonValue.null := by
  have h := c1_unset_optional_fields_absent
    (Message.mk none none none none none none none none none)
  have h2 := (c1_unset_optional_fields_absent (Message.new ["abc"]))
  refine ⟨h.1 rfl, h.2.1 rfl, h.2.2.1 rfl, h.2.2.2.1 rfl, h.2.2.2.2.1 rfl,
    h.2.2.2.2.2.1 rfl, h.2.2.2.2.2.2.1 rfl, h.2.2.2.2.2.2.2.1 rfl,
    h.2.2.2.2.2.2.2.2.1 rfl, ?_⟩
  exact h2.2.2.2.2.2.2.2.2.2 "registration_ids"
    (JsonValue.arr [JsonValue.str "abc"])
    (by simp [serializeMessage, serializeOptField, Message.new])

/-- C2: a `Message` whose priority was never set serializes without the
`priority` key; in particular the document does not contain
`"priority": "normal"` — the omit-if-unset gate runs before the encoder. -/
theorem c2_priority_omitted_when_unset (m : Message)
    (h : m.priority = none) :
    "priority" ∉ jsonKeys (serializeMessage m) ∧
    ∀ v, ("priority", v) ∉ serializeMessage m := by
  constructor
  · intro hmem
    rw [mem_jsonKeys_serializeMessage] at hmem
    simp [h] at hmem
  · intro v hmem
    have hk : "priority" ∈ jsonKeys (serializeMessage m) :=
      List.mem_map_of_mem Prod.fst hmem
    rw [mem_jsonKeys_serializeMessage] at hk
    simp [h] at hk

/-- Witness for C2: a freshly constructed message has no priority, and its
document carries neither the `priority` key nor `"priority": "normal"`. -/
theorem c2_witness :
    ("priority" ∉ jsonKeys (serializeMessage (Message.new ["abc"]))) ∧
    ("priority", JsonValue.str "normal") ∉
      serializeMessage (Message.new ["abc"]) := by
  have h := c2_priority_omitted_when_unset (Message.new ["abc"]) rfl
  exact ⟨h.1, h.2 (JsonValue.str "normal")⟩

/-- C3: the priority encoder is total — a present `High` renders `"high"`, a
present `Normal` renders `"normal"`, an absent priority renders `"normal"`,
and the output is always one of those two strings, never the enumerated tag
names `"High"` or `"Normal"`. -/
theorem c3_priority_lowercase_total (o : Option Priority) :
    priority_lowercase (some Priority.High) = JsonValue.str "high" ∧
    priority_lowercase (some Priority.Normal) = JsonValue.str "normal" ∧
    priority_lowercase none = JsonValue.str "normal" ∧
    (priority_lowercase o = JsonValue.str "normal" ∨
     priority_lowercase o = JsonValue.str "high") ∧
    priority_lowercase o ≠ JsonValue.str "High" ∧
    priority_lowercase o ≠ JsonValue.str "Normal" := by
  refine ⟨rfl, rfl, rfl, ?_, ?_, ?_⟩ <;>
    rcases o with _ | p <;> try cases p
  all_goals simp [priority_lowercase]

/-- Witness for C3 at the concrete inputs. -/
theorem c3_witness :
    priority_lowercase (some Priority.High) = JsonValue.str "high" ∧
    priority_lowercase none ≠ JsonValue.str "Normal" := by
  have h := c3_priority_lowercase_total none
  exact ⟨h.1, h.2.2.2.2.2⟩

/-- C5: `Message::new ids` holds exactly `ids` in `registration_ids` and
leaves the other eight fields unset; with `ids = ["abc"]` the serialized
document is exactly the minimal one-key document. -/
theorem c5_new_minimal_document (ids : List String) :
    (Message.new ids).registration_ids = some ids ∧
    (Message.new ids).collapse_key = none ∧
    (Message.new ids).priority = none ∧
    (Message.new ids).content_available = none ∧
    (Message.new ids).delay_while_idle = none ∧
    (Message.new ids).time_to_live = none ∧
    (Message.new ids).restricted_package_name = none ∧
    (Message.new ids).dry_run = none ∧
    (Message.new ids).data = none ∧
    serializeMessage (Message.new ids) =
      [("registration_ids", JsonValue.arr (ids.map JsonValue.str))] ∧
    toJson (Message.new ["abc"]) =
      JsonValue.obj [("registration_ids", JsonValue.arr [JsonValue.str "abc"])] ∧
    renderJson (toJson (Message.new ["abc"])) =
      "\x7b" ++ "\"registration_ids\":[\"abc\"]" ++ "\x7d" := by
  refine ⟨rfl, rfl, rfl, rfl, rfl, rfl, rfl, rfl, rfl, rfl, rfl, by decide⟩

mutual
/-- The deep copy of a value is the value itself. -/
theorem cloneValue_id : ∀ v : JsonValue, cloneValue v = v
  | JsonValue.null => by simp [cloneValue]
  | JsonValue.bool b => by simp [cloneValue]
  | JsonValue.num n => by simp [cloneValue]
  | JsonValue.str s => by simp [cloneValue]
  | JsonValue.arr xs => by simp [cloneValue, cloneList_id xs]
  | JsonValue.obj fs => by simp [cloneValue, cloneFields_id fs]

/-- The deep copy of an array body is itself. -/
theorem cloneList_id : ∀ xs : List JsonValue, cloneList xs = xs
  | [] => by simp [cloneList]
  | x :: xs => by simp [cloneList, cloneValue_id x, cloneList_id xs]

/-- The deep copy of an object body is itself. -/
theorem cloneFields_id : ∀ fs : List (String × JsonValue), cloneFields fs = fs
  | [] => by simp [cloneFields]
  | (k, v) :: fs => by simp [cloneFields, cloneValue_id v, cloneFields_id fs]
end

/-- Inserting a key greater than every key of a sorted map appends the new
entry at the back. -/
theorem mapInsert_append (acc : JsonMap) (k : String) (v : JsonValue)
    (h : ∀ p ∈ acc, p.1 < k) : mapInsert acc k v = acc ++ [(k, v)] := by
  induction acc with
  | nil => rfl
  | cons hd tl ih =>
    obtain ⟨k', v'⟩ := hd
    have hlt : k' < k := h (k', v') (List.mem_cons_self _ _)
    have h1 : ¬ k < k' := not_lt.mpr (le_of_lt hlt)
    have h2 : ¬ k = k' := fun he => absurd (he ▸ hlt) (lt_irrefl k)
    simp only [mapInsert, if_neg h1, if_neg h2, List.cons_append,
      List.cons.injEq, true_and]
    exact ih (fun p hp => h p (List.mem_cons_of_mem _ hp))

/-- Folding the clone-and-insert step of `Message::data` over a map whose
keys are strictly increasing (the `BTreeMap` iteration order) appends the
cloned entries in order. -/
theorem foldl_insert_sorted (d : JsonMap) :
    ∀ acc : JsonMap,
      d.Pairwise (fun a b => a.1 < b.1) →
      (∀ p ∈ acc, ∀ q ∈ d, p.1 < q.1) →
      d.foldl (fun acc kv => mapInsert acc kv.1 (cloneValue kv.2)) acc =
        acc ++ d.map (fun kv => (kv.1, cloneValue kv.2)) := by
  induction d with
  | nil => intro acc _ _; simp
  | cons hd tl ih =>
    intro acc hpair hlt
    rw [List.foldl_cons,
      mapInsert_append acc hd.1 (cloneValue hd.2)
        (fun p hp => hlt p hp hd (List.mem_cons_self _ _)),
      ih (acc ++ [(hd.1, cloneValue hd.2)]) (List.Pairwise.of_cons hpair) ?_]
    · simp
    · intro p hp q hq
      rcases List.mem_append.mp hp with hp1 | hp1
      · exact hlt p hp1 q (List.mem_cons_of_mem _ hq)
      · have : p = (hd.1, cloneValue hd.2) := by simpa using hp1
        rw [this]
        exact (List.pairwise_cons.mp hpair).1 q hq

/-- C4: the data setter stores a full value-copy of the supplied mapping —
for any mapping in `BTreeMap` iteration order (strictly increasing keys), the
stored field equals the mapping itself, every cloned value equals its
original, and the serialized document carries the mapping under `data`.  In a
value-semantics model the stored copy is a value, so later changes to the
caller's mapping cannot alter it. -/
theorem c4_data_defensive_copy (m : Message) (d : JsonMap)
    (hsorted : d.Pairwise (fun a b => a.1 < b.1)) :
    (m.data' d).data = some d ∧
    (∀ v, cloneValue v = v) ∧
    ("data", JsonValue.obj d) ∈ serializeMessage (m.data' d) := by
  have hdata : (m.data' d).data = some d := by
    simp only [Message.data']
    rw [foldl_insert_sorted d [] hsorted (by simp)]
    simp only [List.nil_append, Option.some.injEq]
    have : ∀ kv ∈ d, (fun kv : String × JsonValue =>
        (kv.1, cloneValue kv.2)) kv = id kv := by
      intro kv _
      simp [cloneValue_id kv.2]
    rw [List.map_congr_left this, List.map_id]
  refine ⟨hdata, cloneValue_id, ?_⟩
  have hmem : ("data", JsonValue.obj d) ∈
      serializeOptField "data" (m.data' d).data JsonValue.obj := by
    rw [hdata]
    simp [serializeOptField]
  simp only [serializeMessage]
  exact List.mem_append.mpr (Or.inr hmem)

/-- Witness for C4 at the mapping with the single entry `"msg" : "hi"`. -/
theorem c4_witness :
    ((Message.new ["abc"]).data' [("msg", JsonValue.str "hi")]).data =
      some [("msg", JsonValue.str "hi")] ∧
    ("data", JsonValue.obj [("msg", JsonValue.str "hi")]) ∈
      serializeMessage
        ((Message.new ["abc"]).data' [("msg", JsonValue.str "hi")]) := by
  have h := c4_data_defensive_copy (Message.new ["abc"])
    [("msg", JsonValue.str "hi")] (by simp)
  exact ⟨h.1, h.2.2⟩

/-- C6: each fluent setter sets exactly its one field to the given value and
leaves the other eight fields unchanged; after setting, the field's key is in
the serialized document, and the presence of every other key is exactly what
it was before the call. -/
theorem c6_setters_frame (m : Message) (s1 s2 : String) (p : Priority)
    (b1 b2 b3 : Bool) (t : Int) (d : JsonMap) :
    (m.collapse_key' s1).collapse_key = some s1 ∧
    (m.collapse_key' s1).registration_ids = m.registration_ids ∧
    (m.collapse_key' s1).priority = m.priority ∧
    (m.collapse_key' s1).content_available = m.content_available ∧
    (m.collapse_key' s1).delay_while_idle = m.delay_while_idle ∧
    (m.collapse_key' s1).time_to_live = m.time_to_live ∧
    (m.collapse_key' s1).restricted_package_name = m.restricted_package_name ∧
    (m.collapse_key' s1).dry_run = m.dry_run ∧
    (m.collapse_key' s1).data = m.data ∧
    "collapse_key" ∈ jsonKeys (serializeMessage (m.collapse_key' s1)) ∧
    (∀ k, k ≠ "collapse_key" → (k ∈ jsonKeys (serializeMessage (m.collapse_key' s1)) ↔ k ∈ jsonKeys (serializeMessage m))) ∧
    (m.priority' p).priority = some p ∧
    (m.priority' p).registration_ids = m.registration_ids ∧
    (m.priority' p).collapse_key = m.collapse_key ∧
    (m.priority' p).content_available = m.content_available ∧
    (m.priority' p).delay_while_idle = m.delay_while_idle ∧
    (m.priority' p).time_to_live = m.time_to_live ∧
    (m.priority' p).restricted_package_name = m.restricted_package_name ∧
    (m.priority' p).dry_run = m.dry_run ∧
    (m.priority' p).data = m.data ∧
    "priority" ∈ jsonKeys (serializeMessage (m.priority' p)) ∧
    (∀ k, k ≠ "priority" → (k ∈ jsonKeys (serializeMessage (m.priority' p)) ↔ k ∈ jsonKeys (serializeMessage m))) ∧
    (m.content_available' b1).content_available = some b1 ∧
    (m.content_available' b1).registration_ids = m.registration_ids ∧
    (m.content_available' b1).collapse_key = m.collapse_key ∧
    (m.content_available' b1).priority = m.priority ∧
    (m.content_available' b1).delay_while_idle = m.delay_while_idle ∧
    (m.content_available' b1).time_to_live = m.time_to_live ∧
    (m.content_available' b1).restricted_package_name = m.restricted_package_name ∧
    (m.content_available' b1).dry_run = m.dry_run ∧
    (m.content_available' b1).data = m.data ∧
    "content_available" ∈ jsonKeys (serializeMessage (m.content_available' b1)) ∧
    (∀ k, k ≠ "content_available" → (k ∈ jsonKeys (serializeMessage (m.content_available' b1)) ↔ k ∈ jsonKeys (serializeMessage m))) ∧
    (m.delay_while_idle' b2).delay_while_idle = some b2 ∧
    (m.delay_while_idle' b2).registration_ids = m.registration_ids ∧
    (m.delay_while_idle' b2).collapse_key = m.collapse_key ∧
    (m.delay_while_idle' b2).priority = m.priority ∧
    (m.delay_while_idle' b2).content_available = m.content_available ∧
    (m.delay_while_idle' b2).time_to_live = m.time_to_live ∧
    (m.delay_while_idle' b2).restricted_package_name = m.restricted_package_name ∧
    (m.delay_while_idle' b2).dry_run = m.dry_run ∧
    (m.delay_while_idle' b2).data = m.data ∧
    "delay_while_idle" ∈ jsonKeys (serializeMessage (m.delay_while_idle' b2)) ∧
    (∀ k, k ≠ "delay_while_idle" → (k ∈ jsonKeys (serializeMessage (m.delay_while_idle' b2)) ↔ k ∈ jsonKeys (serializeMessage m))) ∧
    (m.time_to_live' t).time_to_live = some t ∧
    (m.time_to_live' t).registration_ids = m.registration_ids ∧
    (m.time_to_live' t).collapse_key = m.collapse_key ∧
    (m.time_to_live' t).priority = m.priority ∧
    (m.time_to_live' t).content_available = m.content_available ∧
    (m.time_to_live' t).delay_while_idle = m.delay_while_idle ∧
    (m.time_to_live' t).restricted_package_name = m.restricted_package_name ∧
    (m.time_to_live' t).dry_run = m.dry_run ∧
    (m.time_to_live' t).data = m.data ∧
    "time_to_live" ∈ jsonKeys (serializeMessage (m.time_to_live' t)) ∧
    (∀ k, k ≠ "time_to_live" → (k ∈ jsonKeys (serializeMessage (m.time_to_live' t)) ↔ k ∈ jsonKeys (serializeMessage m))) ∧
    (m.restricted_package_name' s2).restricted_package_name = some s2 ∧
    (m.restricted_package_name' s2).registration_ids = m.registration_ids ∧
    (m.restricted_package_name' s2).collapse_key = m.collapse_key ∧
    (m.restricted_package_name' s2).priority = m.priority ∧
    (m.restricted_package_name' s2).content_available = m.content_available ∧
    (m.restricted_package_name' s2).delay_while_idle = m.delay_while_idle ∧
    (m.restricted_package_name' s2).time_to_live = m.time_to_live ∧
    (m.restricted_package_name' s2).dry_run = m.dry_run ∧
    (m.restricted_package_name' s2).data = m.data ∧
    "restricted_package_name" ∈ jsonKeys (serializeMessage (m.restricted_package_name' s2)) ∧
    (∀ k, k ≠ "restricted_package_name" → (k ∈ jsonKeys (serializeMessage (m.restricted_package_name' s2)) ↔ k ∈ jsonKeys (serializeMessage m))) ∧
    (m.dry_run' b3).dry_run = some b3 ∧
    (m.dry_run' b3).registration_ids = m.registration_ids ∧
    (m.dry_run' b3).collapse_key = m.collapse_key ∧
    (m.dry_run' b3).priority = m.priority ∧
    (m.dry_run' b3).content_available = m.content_available ∧
    (m.dry_run' b3).delay_while_idle = m.delay_while_idle ∧
    (m.dry_run' b3).time_to_live = m.time_to_live ∧
    (m.dry_run' b3).restricted_package_name = m.restricted_package_name ∧
    (m.dry_run' b3).data = m.data ∧
    "dry_run" ∈ jsonKeys (serializeMessage (m.dry_run' b3)) ∧
    (∀ k, k ≠ "dry_run" → (k ∈ jsonKeys (serializeMessage (m.dry_run' b3)) ↔ k ∈ jsonKeys (serializeMessage m))) ∧
    ((m.data' d).data).isSome = true ∧
    (m.data' d).registration_ids = m.registration_ids ∧
    (m.data' d).collapse_key = m.collapse_key ∧
    (m.data' d).priority = m.priority ∧
    (m.data' d).content_available = m.content_available ∧
    (m.data' d).delay_while_idle = m.delay_while_idle ∧
    (m.data' d).time_to_live = m.time_to_live ∧
    (m.data' d).restricted_package_name = m.restricted_package_name ∧
    (m.data' d).dry_run = m.dry_run ∧
    "data" ∈ jsonKeys (serializeMessage (m.data' d)) ∧
    (∀ k, k ≠ "data" → (k ∈ jsonKeys (serializeMessage (m.data' d)) ↔ k ∈ jsonKeys (serializeMessage m))) := by
  repeat' apply And.intro
  all_goals first
    | rfl
    | (rw [mem_jsonKeys_serializeMessage]
       simp [Message.collapse_key', Message.priority',
         Message.content_available', Message.delay_while_idle',
         Message.time_to_live', Message.restricted_package_name',
         Message.dry_run', Message.data'])
    | (intro k hk
       rw [mem_jsonKeys_serializeMessage, mem_jsonKeys_serializeMessage]
       simp [hk, Message.collapse_key', Message.priority',
         Message.content_available', Message.delay_while_idle',
         Message.time_to_live', Message.restricted_package_name',
         Message.dry_run', Message.data'])

/-- Witness for C6 at concrete arguments, discharging the key-preservation
hypotheses at the key `"priority"`. -/
theorem c6_witness :
    ((Message.new ["abc"]).collapse_key' ("g")).collapse_key = some "g" ∧
    ((Message.new ["abc"]).collapse_key' ("g")).priority =
      (Message.new ["abc"]).priority ∧
    "collapse_key" ∈
      jsonKeys (serializeMessage ((Message.new ["abc"]).collapse_key' ("g"))) ∧
    ("priority" ∈
        jsonKeys (serializeMessage ((Message.new ["abc"]).collapse_key' ("g"))) ↔
      "priority" ∈ jsonKeys (serializeMessage (Message.new ["abc"]))) ∧
    (((Message.new ["abc"]).data' []).data).isSome = true ∧
    ("priority" ∈ jsonKeys (serializeMessage ((Message.new ["abc"]).data' [])) ↔
      "priority" ∈ jsonKeys (serializeMessage (Message.new ["abc"]))) := by
  obtain ⟨h1, h2, h3, h4, h5, h6, h7, h8, h9, h10, h11, h12, h13, h14, h15, h16, h17, h18, h19, h20, h21, h22, h23, h24, h25, h26, h27, h28, h29, h30, h31, h32, h33, h34, h35, h36, h37, h38, h39, h40, h41, h42, h43, h44, h45, h46, h47, h48, h49, h50, h51, h52, h53, h54, h55, h56, h57, h58, h59, h60, h61, h62, h63, h64, h65, h66, h67, h68, h69, h70, h71, h72, h73, h74, h75, h76, h77, h78, h79, h80, h81, h82, h83, h84, h85, h86, h87, h88⟩ :=
    c6_setters_frame (Message.new ["abc"]) "g" "rp" Priority.High true false
      true 7 []
  exact ⟨h1, h3, h10, h11 "priority" (by decide), h78,
    h88 "priority" (by decide)⟩

/-- C7: `Message::build` is the identity — applying it zero or more times
before serializing changes neither the message nor its serialized document. -/
theorem c7_build_identity (m : Message) (n : Nat) :
    Message.build m = m ∧
    Message.build^[n] m = m ∧
    serializeMessage (Message.build^[n] m) = serializeMessage m ∧
    renderJson (toJson (Message.build^[n] m)) = renderJson (toJson m) := by
  have hit : Message.build^[n] m = m := Function.iterate_fixed rfl n
  exact ⟨rfl, hit, by rw [hit], by rw [hit]⟩

/-- C8: any two fluent setters targeting distinct fields commute — applying
them in either order yields the same `Message`, hence the same document. -/
theorem c8_setter_order_irrelevant (m : Message) (s1 s2 : String)
    (p : Priority) (b1 b2 b3 : Bool) (t : Int) (d : JsonMap) :
    ((m.collapse_key' s1).priority' p) = ((m.priority' p).collapse_key' s1) ∧
    ((m.collapse_key' s1).content_available' b1) = ((m.content_available' b1).collapse_key' s1) ∧
    ((m.collapse_key' s1).delay_while_idle' b2) = ((m.delay_while_idle' b2).collapse_key' s1) ∧
    ((m.collapse_key' s1).time_to_live' t) = ((m.time_to_live' t).collapse_key' s1) ∧
    ((m.collapse_key' s1).restricted_package_name' s2) = ((m.restricted_package_name' s2).collapse_key' s1) ∧
    ((m.collapse_key' s1).dry_run' b3) = ((m.dry_run' b3).collapse_key' s1) ∧
    ((m.collapse_key' s1).data' d) = ((m.data' d).collapse_key' s1) ∧
    ((m.priority' p).content_available' b1) = ((m.content_available' b1).priority' p) ∧
    ((m.priority' p).delay_while_idle' b2) = ((m.delay_while_idle' b2).priority' p) ∧
    ((m.priority' p).time_to_live' t) = ((m.time_to_live' t).priority' p) ∧
    ((m.priority' p).restricted_package_name' s2) = ((m.restricted_package_name' s2).priority' p) ∧
    ((m.priority' p).dry_run' b3) = ((m.dry_run' b3).priority' p) ∧
    ((m.priority' p).data' d) = ((m.data' d).priority' p) ∧
    ((m.content_available' b1).delay_while_idle' b2) = ((m.delay_while_idle' b2).content_available' b1) ∧
    ((m.content_available' b1).time_to_live' t) = ((m.time_to_live' t).content_available' b1) ∧
    ((m.content_available' b1).restricted_package_name' s2) = ((m.restricted_package_name' s2).content_available' b1) ∧
    ((m.content_available' b1).dry_run' b3) = ((m.dry_run' b3).content_available' b1) ∧
    ((m.content_available' b1).data' d) = ((m.data' d).content_available' b1) ∧
    ((m.delay_while_idle' b2).time_to_live' t) = ((m.time_to_live' t).delay_while_idle' b2) ∧
    ((m.delay_while_idle' b2).restricted_package_name' s2) = ((m.restricted_package_name' s2).delay_while_idle' b2) ∧
    ((m.delay_while_idle' b2).dry_run' b3) = ((m.dry_run' b3).delay_while_idle' b2) ∧
    ((m.delay_while_idle' b2).data' d) = ((m.data' d).delay_while_idle' b2) ∧
    ((m.time_to_live' t).restricted_package_name' s2) = ((m.restricted_package_name' s2).time_to_live' t) ∧
    ((m.time_to_live' t).dry_run' b3) = ((m.dry_run' b3).time_to_live' t) ∧
    ((m.time_to_live' t).data' d) = ((m.data' d).time_to_live' t) ∧
    ((m.restricted_package_name' s2).dry_run' b3) = ((m.dry_run' b3).restricted_package_name' s2) ∧
    ((m.restricted_package_name' s2).data' d) = ((m.data' d).restricted_package_name' s2) ∧
    ((m.dry_run' b3).data' d) = ((m.data' d).dry_run' b3) := by
  exact ⟨rfl, rfl, rfl, rfl, rfl, rfl, rfl, rfl, rfl, rfl, rfl, rfl, rfl, rfl, rfl, rfl, rfl, rfl, rfl, rfl, rfl, rfl, rfl, rfl, rfl, rfl, rfl, rfl⟩

/-- C9: construction, the setters and serialization are total — the empty
recipient list, a zero or negative time-to-live and any data mapping are all
accepted, and serialization always yields a JSON object, never an error. -/
theorem c9_total_no_errors (ids : List String) (t : Int) (m : Message)
    (d : JsonMap) :
    (Message.new ids).registration_ids = some ids ∧
    (Message.new []).registration_ids = some [] ∧
    (m.time_to_live' 0).time_to_live = some 0 ∧
    (m.time_to_live' (-1)).time_to_live = some (-1) ∧
    (m.time_to_live' t).time_to_live = some t ∧
    ((m.data' d).data).isSome = true ∧
    serializeMessage (Message.new ids) =
      [("registration_ids", JsonValue.arr (ids.map JsonValue.str))] ∧
    (∃ doc, toJson m = JsonValue.obj doc) :=
  ⟨rfl, rfl, rfl, rfl, rfl, rfl, rfl, ⟨serializeMessage m, rfl⟩⟩


/-- C10: every message reachable through the public interface has its
`registration_ids` field present, so every serialized document contains the
`registration_ids` key. -/
theorem c10_registration_ids_always_present (m : Message)
    (h : ReachableMessage m) :
    (∃ ids, m.registration_ids = some ids) ∧
    "registration_ids" ∈ jsonKeys (serializeMessage m) := by
  have hids : ∃ ids, m.registration_ids = some ids := by
    induction h with
    | new ids => exact ⟨ids, rfl⟩
    | collapse_key m k hm ih => exact ih
    | priority m p hm ih => exact ih
    | content_available m b hm ih => exact ih
    | delay_while_idle m b hm ih => exact ih
    | time_to_live m t hm ih => exact ih
    | restricted_package_name m s hm ih => exact ih
    | dry_run m b hm ih => exact ih
    | data m d hm ih => exact ih
    | build m hm ih => exact ih
  refine ⟨hids, ?_⟩
  rw [mem_jsonKeys_serializeMessage]
  obtain ⟨ids, hid⟩ := hids
  exact Or.inl ⟨rfl, by simp [hid]⟩

/-- Witness for C10 at a concrete builder chain. -/
theorem c10_witness :
    (∃ ids, ((Message.new ["abc"]).dry_run' true).registration_ids =
      some ids) ∧
    "registration_ids" ∈
      jsonKeys (serializeMessage ((Message.new ["abc"]).dry_run' true)) := by
  exact c10_registration_ids_always_present
    ((Message.new ["abc"]).dry_run' true)
    (ReachableMessage.dry_run (Message.new ["abc"]) true
      (ReachableMessage.new ["abc"]))
